import Mathlib

/-!
Verification of the onobjectfinalize-indirect reproduction harness.

The repository consists of a bash workload driver (`test-race-conditions.sh`,
provided as an unnamed source file), a trigger artifact (`functions/scripts/createDoc.ts`),
and cloud-function handlers (`functions/src/storage-triggers.ts`,
`functions/src/firestore-triggers.ts`, `functions/src/repro.ts`).

This file gives a shallow embedding of those pieces:
the driver becomes a pure function from its inputs (argument list, file-system
facts, the exit codes of the external invocations) to a trace of observable
events plus a process exit code; bash 64-bit signed arithmetic is modelled
with explicit two's-complement wrap and truncated `%`; the awk
`printf "%.2f"` formatting is modelled as round-half-even on the exact
rational (the operand is a dyadic rational that is exactly representable as
an IEEE double, so correctly-rounded printf is round-to-nearest-even).
Sleep durations are carried as integer hundredths of a second.

One behaviour of the script matters throughout: `sleep_time=$(prng_float)`
is a command substitution, and `prng_float` itself reads the generator
through another command substitution `local v=$(prng_next)`. Command
substitutions run in subshells, so the `_SEED_STATE=$(( ... ))` assignment
inside `prng_next` mutates only a throwaway subshell; the parent shell's
`_SEED_STATE` stays at the seed for the whole run, and every iteration's
sleep is derived from a single generator step applied to the unchanged
seed. The loop model below reflects this: no generator state is threaded
across iterations.
-/

namespace Driver

/-! ### Pseudo-random generator (test-race-conditions.sh, `prng_next` / `prng_float`) -/

/-- LCG multiplier from the script: `1103515245`. -/
def A : Int := 1103515245

/-- LCG increment from the script: `12345`. -/
def C : Int := 12345

/-- LCG modulus from the script: `2147483648`. -/
def M : Int := 2147483648

/-- Bash arithmetic is evaluated in 64-bit two's-complement; `wrap64` reduces an
unbounded integer to that representation. -/
def wrap64 (x : Int) : Int := (x + 2 ^ 63) % 2 ^ 64 - 2 ^ 63

/-- One step of the script's generator:
`_SEED_STATE=$(( (1103515245 * _SEED_STATE + 12345) % 2147483648 ))`.
Bash `%` is C-style truncated remainder, hence `Int.tmod`; the multiplication
and addition wrap at 64 bits. -/
def prng_next (s : Int) : Int := Int.tmod (wrap64 (A * s + C)) M

/-- The generator state after `k` calls to `prng_next`, starting from seed `S`
(the script initialises `_SEED_STATE=$SEED`). -/
def prng_state (S : Int) : Nat → Int
  | 0 => S
  | k + 1 => prng_next (prng_state S k)

/-- Round the rational `a / b` (with `b > 0`) to the nearest integer, ties to
even: the rounding performed by `printf "%.2f"` on an exactly-representable
double. -/
def roundHalfEven (a b : Int) : Int :=
  let q := a / b
  let r := a % b
  if 2 * r < b then q
  else if b < 2 * r then q + 1
  else if q % 2 = 0 then q else q + 1

/-- The script's `prng_float`: `awk 'BEGIN { printf "%.2f", (val/2147483648) }'`,
expressed in integer hundredths of a second. -/
def prng_float_hundredths (v : Int) : Int := roundHalfEven (100 * v) M

/-- The state sequence written the way the spec words the recurrence,
`state_k = (A * state_{k-1} + C) mod M`, reading `mod` as the mathematical
(always non-negative) modulus. Kept separate from `prng_state` so the two can
be compared. -/
def specState (S : Int) : Nat → Int
  | 0 => S
  | k + 1 => Int.emod (A * specState S k + C) M

/-! ### Argument parsing (test-race-conditions.sh, lines 4-26) -/

/-- Bash `case` glob `--seed=*`: the string starts with the given pattern. -/
def strStartsWith (s p : String) : Bool := p.data.isPrefixOf s.data

/-- Value of a list of decimal digit characters. -/
def decDigits (ds : List Char) : Nat :=
  ds.foldl (fun n c => n * 10 + (c.toNat - 48)) 0

/-- Bash arithmetic evaluation of a variable holding a canonical decimal
integer string, as in `_SEED_STATE=$SEED`: an optional leading minus sign
followed by decimal digits (an empty string evaluates to 0 in an arithmetic
context). -/
def bashToInt (s : String) : Int :=
  match s.data with
  | '-' :: ds => -(decDigits ds : Int)
  | ds => (decDigits ds : Int)

/-- The `while [[ $# -gt 0 ]] ... case` loop of the script. The accumulated
seed is kept as a string, as bash does; the second component is the rebuild
flag recovered from `PARSED_ARGS`. `none` models the fatal
`echo "Unknown arg: $1" >&2; exit 1` path (and the `set -u` abort when
`--seed` has no following word). -/
def parseArgsAux : List String → String → Bool → Option (String × Bool)
  | [], seed, rb => some (seed, rb)
  | a :: rest, seed, rb =>
    if a == "--seed" then
      match rest with
      | [] => none
      | v :: rest2 => parseArgsAux rest2 v rb
    else if strStartsWith a "--seed=" then
      parseArgsAux rest (String.mk (a.data.drop 7)) rb
    else if a == "--rebuild" then
      parseArgsAux rest seed true
    else none

/-- Argument parsing with the script's defaults: `SEED=12345`, no rebuild. -/
def parseArgs (args : List String) : Option (String × Bool) :=
  parseArgsAux args "12345" false

/-! ### Driver loop (test-race-conditions.sh, lines 28-101) -/

/-- Observable actions of the driver, in program order. -/
inductive Event where
  /-- an `npm run build` invocation -/
  | build
  /-- the external trigger invocation `node "$OUT_FILE"` of iteration `i` -/
  | invoke (i : Nat)
  /-- the fixed `sleep 2` settle wait -/
  | settle
  /-- the pseudo-random `sleep "$sleep_time"`, in hundredths of a second -/
  | randSleep (hundredths : Int)
  /-- a diagnostic line on stderr -/
  | diag (msg : String)
  /-- the final `✅ Completed 20 iterations` message -/
  | done
deriving DecidableEq

/-- Whether the script runs `npm run build`: forced `--rebuild`, or
`[[ ! -f "$OUT_FILE" ]]`, or `[[ "$SRC_FILE" -nt "$OUT_FILE" ]]`. -/
def needBuild (rebuild exists0 srcNewer : Bool) : Bool :=
  rebuild || !exists0 || srcNewer

/-- The `for i in {1..20}` loop, parameterised by the exit code of each
iteration's `node` invocation. `n` is the number of iterations left, `i` the
current 1-based iteration index, `st` the parent shell's `_SEED_STATE`.
Because `sleep_time=$(prng_float)` runs `prng_next` inside subshells, the
parent `_SEED_STATE` is never mutated: `st` is passed on unchanged and every
iteration's sleep is `prng_float_hundredths (prng_next st)` for the same
`st`. Under `set -euo pipefail` a non-zero `node` exit aborts the whole
script with that exit status, modelled by the `Option Nat` component; `none`
means the loop ran to completion. -/
def runIters (exits : Nat → Nat) : Nat → Nat → Int → List Event × Option Nat
  | 0, _, _ => ([], none)
  | n + 1, i, st =>
    if exits i ≠ 0 then ([Event.invoke i], some (exits i))
    else
      let rest := runIters exits n (i + 1) st
      (Event.invoke i :: Event.settle ::
        Event.randSleep (prng_float_hundredths (prng_next st)) :: rest.1,
        rest.2)

/-- The driver after argument parsing: build-freshness check, post-build
artifact check, then the 20-iteration loop. `exists0` is whether
`functions/lib/scripts/createDoc.js` exists before the build phase, `srcNewer`
whether the TypeScript source has a strictly newer mtime, `buildOk` whether
`npm run build` (modelled as succeeding) leaves the artifact in place.
Returns the event trace and the process exit code. -/
def driverRun (seed : Int) (rebuild exists0 srcNewer buildOk : Bool)
    (exits : Nat → Nat) : List Event × Nat :=
  let nb := needBuild rebuild exists0 srcNewer
  let buildEvs := if nb then [Event.build] else []
  let artifactAfter := if nb then buildOk else exists0
  if artifactAfter then
    let r := runIters exits 20 1 seed
    match r.2 with
    | some c => (buildEvs ++ r.1, c)
    | none => (buildEvs ++ r.1 ++ [Event.done], 0)
  else
    (buildEvs ++ [Event.diag "Build failed: createDoc.js still missing"], 1)

/-- The whole script: parse arguments, then run. An unparsable argument list
exits 1 after only the stderr diagnostic. -/
def driver (args : List String) (exists0 srcNewer buildOk : Bool)
    (exits : Nat → Nat) : List Event × Nat :=
  match parseArgs args with
  | none => ([Event.diag "Unknown arg"], 1)
  | some (s, rb) => driverRun (bashToInt s) rb exists0 srcNewer buildOk exits

/-- The pseudo-random sleep durations a trace contains, in order. -/
def randSleepsOf (evs : List Event) : List Int :=
  evs.filterMap (fun e => match e with | Event.randSleep h => some h | _ => none)

/-- The first `n` sleep durations derived from seed `S`: the subshell
confinement of `_SEED_STATE` makes the sequence constant — every sleep is the
value derived from one generator step from the seed. -/
def sleepSeq (S : Int) (n : Nat) : List Int :=
  List.replicate n (prng_float_hundredths (prng_next S))

/-- Recogniser for invocation events. -/
def isInvoke : Event → Bool
  | Event.invoke _ => true
  | _ => false

/-- The trace of `n` consecutive successful iterations starting at iteration
`i` with parent-shell state `st` (never mutated, per the subshell
confinement): each iteration is invoke, settle, pseudo-random sleep, in that
order, and every sleep carries the same `prng_next st`-derived value. -/
def loopTrace (st : Int) (i : Nat) : Nat → List Event
  | 0 => []
  | n + 1 =>
    Event.invoke i :: Event.settle ::
      Event.randSleep (prng_float_hundredths (prng_next st)) ::
        loopTrace st (i + 1) n

end Driver

namespace CreateDoc

/-! ### The external trigger artifact (functions/scripts/createDoc.ts) -/

/-- Firestore operations performed by the script for one record, in the order
the `async (_, i) => ...` body performs them. -/
inductive ScriptOp where
  /-- `col.add({ ..., generate: <flag>, testRun: i })` -/
  | create (i : Nat) (generate : Bool)
  /-- `await new Promise((resolve) => setTimeout(resolve, ms))` -/
  | delayMs (ms : Nat)
  /-- `docRef.update({ generate: <flag> })` -/
  | update (i : Nat) (generate : Bool)
deriving DecidableEq

/-- The burst size: `Array.from({ length: 3 })`. -/
def NUM_DOCS : Nat := 3

/-- The per-record program of `main`: create the document with
`generate: false`, wait the staggered `i * 100` ms delay, then flip
`generate` to `true`. -/
def recordOps (i : Nat) : List ScriptOp :=
  [ScriptOp.create i false, ScriptOp.delayMs (i * 100), ScriptOp.update i true]

/-- `main` maps the per-record program over the burst. -/
def mainOps : List (List ScriptOp) := (List.range NUM_DOCS).map recordOps

/-- Process exit code: `main().catch((e) => { console.error(e); process.exit(1) })`;
a fulfilled `main` lets the process exit 0. `rejected` is whether any of the
awaited operations rejected. -/
def scriptExit (rejected : Bool) : Nat := if rejected then 1 else 0

/-- Whether the failure path prints a diagnostic (`console.error(e)`). -/
def scriptDiagnostic (rejected : Bool) : Bool := rejected

end CreateDoc

namespace Handlers

/-! ### Cloud-function handlers (functions/src/storage-triggers.ts,
functions/src/firestore-triggers.ts, functions/src/repro.ts) -/

/-- The part of a Storage finalize event the handler reads: `event.data.name`
(absent when the object has no name) and `event.data.metadata?.uploadToken`. -/
structure StorageObjectData where
  name : Option String
  uploadToken : Option String

/-- The fields of a `storageUploadTokens` document the handler reads. -/
structure TokenData where
  isConsumed : Bool
  fileStoragePath : String

/-- Firestore operations the finalize handler can perform, in order. -/
inductive FsAction where
  /-- `tokenRef.get()` -/
  | tokenGet (tok : String)
  /-- `tokenRef.update({ dateConsumed: ..., isConsumed: true })` -/
  | tokenUpdate (tok : String)
  /-- `ref.set({ lastFileFinalizedAt, processing, verifiedUploads }, { merge: true })`
  on `uploads/<uploadId>` -/
  | uploadSetMerge (uploadId : String)
deriving DecidableEq

/-- JS `s.replace(/\.txt$/, '')`: strip one trailing `.txt` if present. -/
def stripTxtSuffix (s : String) : String :=
  if (".txt").data.isSuffixOf s.data then String.mk (s.data.take (s.data.length - 4)) else s

/-- The uploadId extraction of the finalize handler:
`base = name.split('/').pop()`; `if (!base) return`;
`mainIdPart = base.split('-')[0]`; `uploadId = mainIdPart.replace(/\.txt$/, '')`.
`none` models the early return on an empty basename. -/
def uploadIdOfName (name : String) : Option String :=
  let base := (name.splitOn "/").getLastD ""
  if base == "" then none
  else some (stripTxtSuffix ((base.splitOn "-").headD ""))

/-- The `onUploadFileFinalize` handler of storage-triggers.ts, as the list of
Firestore operations it performs. `lookup` is the content of the
`storageUploadTokens` collection at the time of the `tokenRef.get()`. -/
def onUploadFileFinalize (ev : StorageObjectData)
    (lookup : String → Option TokenData) : List FsAction :=
  match ev.name with
  | none => []
  | some name =>
    if Driver.strStartsWith name "uploads/" = false then []
    else
      let tokenPhase : List FsAction × Bool :=
        match ev.uploadToken with
        | none => ([], false)
        | some tok =>
          match lookup tok with
          | none => ([FsAction.tokenGet tok], true)
          | some td =>
            if td.isConsumed then ([FsAction.tokenGet tok], true)
            else if td.fileStoragePath ≠ name then ([FsAction.tokenGet tok], true)
            else ([FsAction.tokenGet tok, FsAction.tokenUpdate tok], false)
      if tokenPhase.2 then tokenPhase.1
      else
        match uploadIdOfName name with
        | none => tokenPhase.1
        | some uid => tokenPhase.1 ++ [FsAction.uploadSetMerge uid]

/-- The fields of an `uploads/{uploadId}` document the update handlers read or
the finalize handler writes. `generate = some b` means the field holds the
boolean `b`; `none` covers an absent field (the JS guards use `=== true`, so
only `some true` counts as set). -/
structure UploadDoc where
  generate : Option Bool := none
  processing : Option Bool := none
  lastFileFinalizedAt : Option Nat := none
  verifiedUploads : List String := []
deriving DecidableEq

/-- The document produced by the finalize handler's merge write: it sets
`lastFileFinalizedAt` (to the server timestamp `ts`), `processing: true`, and
`arrayUnion`s the object name into `verifiedUploads`; every other field —
`generate` in particular — is left as it was. -/
def applyFinalizeMerge (d : UploadDoc) (ts : Nat) (objectName : String) : UploadDoc :=
  { d with
    lastFileFinalizedAt := some ts
    processing := some true
    verifiedUploads :=
      if objectName ∈ d.verifiedUploads then d.verifiedUploads
      else d.verifiedUploads ++ [objectName] }

/-- The downstream work the firestore-triggers.ts `onUploadUpdate` handler
kicks off. -/
inductive ClipAction where
  /-- `makeApiRequestWithFFmpeg({ url: "/triggerClipPreviewVideo", data: ... })` -/
  | triggerClipPreviewVideo (uploadId clipId : String) (clipIndex : Nat) (musicVideoId : String)
deriving DecidableEq

/-- `const clipsToProcess = ['clip-1', 'clip-2', 'clip-3']`. -/
def clipsToProcess : List String := ["clip-1", "clip-2", "clip-3"]

/-- The `onUploadUpdate` handler of firestore-triggers.ts, as the list of clip
requests it kicks off: it acts only on the transition
`generate: false/undefined -> true` and otherwise returns at once. -/
def onUploadUpdate (uploadId : String) (before after : UploadDoc) : List ClipAction :=
  let generateBefore := before.generate == some true
  let generateAfter := after.generate == some true
  if !generateAfter || generateBefore then []
  else
    (List.range clipsToProcess.length).map (fun i =>
      ClipAction.triggerClipPreviewVideo uploadId (clipsToProcess.getD i "") i
        ("mv-" ++ uploadId))

/-- The downstream work the repro.ts `onUploadUpdate` handler kicks off. -/
inductive ReproAction where
  /-- `processClip(uploadId, clipId, i, wl)` -/
  | processClip (uploadId clipId : String) (clipIndex : Nat)
deriving DecidableEq

/-- The `onUploadUpdate` handler of repro.ts, as the list of `processClip`
calls it dispatches; `wlClips` is `resolveWorkload().clips`. The guard is
`if (before.generate === true || after.generate !== true) return`. -/
def onUploadUpdateRepro (uploadId : String) (wlClips : Nat)
    (before after : UploadDoc) : List ReproAction :=
  if before.generate == some true || !(after.generate == some true) then []
  else
    (List.range wlClips).map (fun i =>
      ReproAction.processClip uploadId ("clip" ++ toString i) i)

end Handlers

namespace Driver

/-! ### Helper lemmas about the generator -/

theorem wrap64_eq_self {x : Int} (h0 : -(2 ^ 63) ≤ x) (h1 : x < 2 ^ 63) :
    wrap64 x = x := by
  unfold wrap64
  omega

/-- On states inside `[0, M)` the bash expression computes the mathematical
`(A * s + C) mod M`: the 64-bit wrap is the identity and truncated `%` agrees
with the non-negative remainder. -/
theorem prng_next_eq_emod {s : Int} (h0 : 0 ≤ s) (h1 : s < M) :
    prng_next s = (A * s + C) % M := by
  have hx0 : 0 ≤ A * s + C := by unfold A C; positivity
  have hx1 : A * s + C < 2 ^ 63 := by unfold A C at *; unfold M at h1; omega
  unfold prng_next
  rw [wrap64_eq_self (by omega) hx1]
  exact Int.tmod_eq_emod hx0 (by unfold M; omega)

theorem prng_next_mem {s : Int} (h0 : 0 ≤ s) (h1 : s < M) :
    0 ≤ prng_next s ∧ prng_next s < M := by
  rw [prng_next_eq_emod h0 h1]
  exact ⟨Int.emod_nonneg _ (by unfold M; omega), Int.emod_lt_of_pos _ (by unfold M; omega)⟩

theorem prng_state_mem {S : Int} (h0 : 0 ≤ S) (h1 : S < M) (k : Nat) :
    0 ≤ prng_state S k ∧ prng_state S k < M := by
  induction k with
  | zero => exact ⟨h0, h1⟩
  | succ k ih => exact prng_next_mem ih.1 ih.2

theorem prng_state_shift (s : Int) (k : Nat) :
    prng_state (prng_next s) k = prng_state s (k + 1) := by
  induction k with
  | zero => rfl
  | succ k ih => simp only [prng_state, ih]

/-- Rounding moves the value by at most one unit upward from the floor. -/
theorem roundHalfEven_bounds (a b : Int) :
    a / b ≤ roundHalfEven a b ∧ roundHalfEven a b ≤ a / b + 1 := by
  simp only [roundHalfEven]
  split_ifs <;> omega

/-- Bounds on the hundredths value: for `0 ≤ v < M` the rounded `v / M` lies
in `[0.00, 1.00]`. -/
theorem prng_float_hundredths_mem {v : Int} (h0 : 0 ≤ v) (h1 : v < M) :
    0 ≤ prng_float_hundredths v ∧ prng_float_hundredths v ≤ 100 := by
  unfold M at h1
  have hb := roundHalfEven_bounds (100 * v) M
  have hq0 : 0 ≤ (100 * v) / M := by unfold M; omega
  have hq1 : (100 * v) / M ≤ 99 := by unfold M; omega
  unfold prng_float_hundredths
  omega

/-! ### Helper lemmas about the iteration loop -/

/-- When every invocation exits 0 the loop emits, for each of the `n`
iterations, exactly the block invoke-settle-randSleep and completes
normally. -/
theorem runIters_all_zero (exits : Nat → Nat) (hz : ∀ j, exits j = 0) :
    ∀ (n i : Nat) (st : Int),
      runIters exits n i st = (loopTrace st i n, none)
  | 0, i, st => by simp [runIters, loopTrace]
  | n + 1, i, st => by
    have hzi : ¬ exits i ≠ 0 := by simp [hz i]
    simp only [runIters, if_neg hzi]
    rw [runIters_all_zero exits hz n (i + 1) st]
    simp [loopTrace]

/-- The loop trace in closed form: every block carries the same sleep value,
derived from one generator step from the unchanged parent state. -/
theorem loopTrace_eq_flatMap : ∀ (n i : Nat) (st : Int),
    loopTrace st i n = (List.range n).flatMap (fun j =>
      [Event.invoke (i + j), Event.settle,
       Event.randSleep (prng_float_hundredths (prng_next st))])
  | 0, i, st => by simp [loopTrace]
  | n + 1, i, st => by
    rw [List.range_succ_eq_map]
    simp only [List.flatMap_cons, List.flatMap_map]
    have hfun : (fun (a : Nat) =>
        [Event.invoke (i + Nat.succ a), Event.settle,
         Event.randSleep (prng_float_hundredths (prng_next st))])
        = (fun (a : Nat) =>
        [Event.invoke (i + 1 + a), Event.settle,
         Event.randSleep (prng_float_hundredths (prng_next st))]) := by
      funext a
      rw [show i + Nat.succ a = i + 1 + a from by omega]
    rw [hfun, ← loopTrace_eq_flatMap n (i + 1) st]
    simp [loopTrace]

/-- If invocations `i, …, i+m-1` exit 0 and invocation `i+m` exits non-zero
(with `m < n` iterations of headroom), the loop emits the `m` complete blocks,
then the failing invocation, and aborts with that invocation's exit code:
no settle, no random sleep, no further invocation. -/
theorem runIters_fail (exits : Nat → Nat) :
    ∀ (m n i : Nat) (st : Int), m < n →
      (∀ j, i ≤ j → j < i + m → exits j = 0) → exits (i + m) ≠ 0 →
      runIters exits n i st =
        (loopTrace st i m ++ [Event.invoke (i + m)],
         some (exits (i + m)))
  | 0, n, i, st => by
    intro hmn hzero hfail
    obtain ⟨n', rfl⟩ : ∃ n', n = n' + 1 := ⟨n - 1, by omega⟩
    simp only [Nat.add_zero] at hfail ⊢
    simp [runIters, if_pos hfail, loopTrace]
  | m + 1, n, i, st => by
    intro hmn hzero hfail
    obtain ⟨n', rfl⟩ : ∃ n', n = n' + 1 := ⟨n - 1, by omega⟩
    have hzi : ¬ exits i ≠ 0 := by simp [hzero i (by omega) (by omega)]
    have heq : i + 1 + m = i + (m + 1) := by omega
    have hfail' : exits (i + 1 + m) ≠ 0 := by rw [heq]; exact hfail
    simp only [runIters, if_neg hzi]
    rw [runIters_fail exits m n' (i + 1) st (by omega)
      (fun j hj1 hj2 => hzero j (by omega) (by omega)) hfail']
    rw [heq]
    simp [loopTrace]

/-- The iteration loop never runs a build. -/
theorem build_not_mem_runIters (exits : Nat → Nat) :
    ∀ (n i : Nat) (st : Int), Event.build ∉ (runIters exits n i st).1
  | 0, i, st => by simp [runIters]
  | n + 1, i, st => by
    by_cases h : exits i ≠ 0
    · simp [runIters, if_pos h]
    · simp only [runIters, if_neg h, List.mem_cons]
      push_neg
      exact ⟨by simp, by simp, by simp, build_not_mem_runIters exits n (i + 1) st⟩

/-- Peeling one sleep off the derived sequence. -/
theorem sleepSeq_succ (st : Int) (n : Nat) :
    sleepSeq st (n + 1) =
      prng_float_hundredths (prng_next st) :: sleepSeq st n := by
  simp [sleepSeq, List.replicate_succ]

/-- The pseudo-random sleeps of a successful loop are exactly the derived
(constant) sequence, independently of the iteration numbering. -/
theorem randSleepsOf_loopTrace : ∀ (n i : Nat) (st : Int),
    randSleepsOf (loopTrace st i n) = sleepSeq st n
  | 0, i, st => by simp [randSleepsOf, loopTrace, sleepSeq]
  | n + 1, i, st => by
    rw [sleepSeq_succ]
    simp only [loopTrace, randSleepsOf, List.filterMap_cons]
    rw [← randSleepsOf_loopTrace n (i + 1) st]
    rfl

/-- Each loop iteration contains exactly one invocation event. -/
theorem countP_isInvoke_loopTrace : ∀ (n i : Nat) (st : Int),
    (loopTrace st i n).countP isInvoke = n
  | 0, i, st => by simp [loopTrace]
  | n + 1, i, st => by
    simp only [loopTrace, List.countP_cons]
    rw [countP_isInvoke_loopTrace n (i + 1) st]
    simp [isInvoke]

/-- Invocation numbers occurring in a loop trace lie in `[i, i + n)`. -/
theorem invoke_mem_loopTrace : ∀ (n i : Nat) (st : Int) (j : Nat),
    Event.invoke j ∈ loopTrace st i n → i ≤ j ∧ j < i + n
  | 0, i, st, j => by simp [loopTrace]
  | n + 1, i, st, j => by
    simp only [loopTrace, List.mem_cons]
    rintro (h | h | h | h)
    · obtain rfl : j = i := by injection h
      omega
    · exact absurd h (by simp)
    · exact absurd h (by simp)
    · have := invoke_mem_loopTrace n (i + 1) st j h
      omega

/-- The whole run when the artifact check passes and every invocation exits 0:
optional build, twenty complete iteration blocks, the completion message, and
exit code 0. -/
theorem driverRun_all_zero (S : Int) (rebuild exists0 srcNewer buildOk : Bool)
    (exits : Nat → Nat)
    (hart : (if needBuild rebuild exists0 srcNewer then buildOk else exists0) = true)
    (hz : ∀ i, exits i = 0) :
    driverRun S rebuild exists0 srcNewer buildOk exits =
      ((if needBuild rebuild exists0 srcNewer then [Event.build] else [])
        ++ loopTrace S 1 20 ++ [Event.done], 0) := by
  unfold driverRun
  rw [runIters_all_zero exits hz 20 1 S]
  simp only [hart, if_true]

/-- The whole run when the artifact check passes, invocations before `i` exit
0, and invocation `i` (with `1 ≤ i ≤ 20`) exits non-zero: the trace stops at
the failing invocation and the exit code is that invocation's. -/
theorem driverRun_fail (S : Int) (rebuild exists0 srcNewer buildOk : Bool)
    (exits : Nat → Nat) (i : Nat)
    (hart : (if needBuild rebuild exists0 srcNewer then buildOk else exists0) = true)
    (h1 : 1 ≤ i) (h2 : i ≤ 20)
    (hz : ∀ j, 1 ≤ j → j < i → exits j = 0) (hf : exits i ≠ 0) :
    driverRun S rebuild exists0 srcNewer buildOk exits =
      ((if needBuild rebuild exists0 srcNewer then [Event.build] else [])
        ++ loopTrace S 1 (i - 1) ++ [Event.invoke i], exits i) := by
  have hif : 1 + (i - 1) = i := by omega
  have hres := runIters_fail exits (i - 1) 20 1 S (by omega)
    (fun j hj1 hj2 => hz j hj1 (by omega))
    (by rw [hif]; exact hf)
  rw [hif] at hres
  unfold driverRun
  rw [hres]
  simp only [hart, if_true, List.append_assoc]

/-- The whole run when the artifact is missing after the build phase. -/
theorem driverRun_no_artifact (S : Int) (rebuild exists0 srcNewer buildOk : Bool)
    (exits : Nat → Nat)
    (hart : (if needBuild rebuild exists0 srcNewer then buildOk else exists0) = false) :
    driverRun S rebuild exists0 srcNewer buildOk exits =
      ((if needBuild rebuild exists0 srcNewer then [Event.build] else [])
        ++ [Event.diag "Build failed: createDoc.js still missing"], 1) := by
  unfold driverRun
  simp only [hart, if_false, Bool.false_eq_true]

/-! ### Claim C1 -/

/-- C1 counterexample, two independent failures of the claim as stated.
First, the claim quantifies over every integer seed, but at seed `-1` the
script's generator (bash truncated `%`) produces the negative state
`-1103502900`, while the claimed recurrence
`state_1 = (A * state_0 + C) mod 2147483648` — with `mod` the mathematical,
always non-negative modulus — gives `1043980748`. Second, the claim says the
`k`-th sleep equals `round(state_k / M, 2)`: at seed 12345 that would make
the second sleep `0.30` (`state_2 = 654583775`), but `sleep_time=$(prng_float)`
runs the generator in a subshell, the parent `_SEED_STATE` never advances,
and a concrete completed run sleeps `0.66` in every one of its 20
iterations. -/
theorem C1_counterexample :
    (prng_state (-1) 1 = -1103502900
      ∧ (A * prng_state (-1) 0 + C) % M = 1043980748
      ∧ prng_state (-1) 1 ≠ (A * prng_state (-1) 0 + C) % M)
    ∧ (randSleepsOf (driverRun 12345 false true false true (fun _ => 0)).1 =
        List.replicate 20 66
      ∧ roundHalfEven (100 * specState 12345 2) M = 30
      ∧ (randSleepsOf (driverRun 12345 false true false true (fun _ => 0)).1)[1]?
          ≠ some (roundHalfEven (100 * specState 12345 2) M)) := by
  refine ⟨⟨by decide, by decide, by decide⟩, by decide, by decide, by decide⟩

/-- C1 (amended): for every seed `0 ≤ S < 2147483648` the generator's step
function satisfies `state' = (1103515245 * state + 12345) mod 2147483648`, and
each call advances the (subshell-local) state once and returns the new state —
so the iterated generator coincides with the spec-worded state sequence
`specState`. But because each sleep computation runs the generator in a
subshell, the parent `_SEED_STATE` never advances: every iteration's sleep
duration equals `round(state_1 / 2147483648, 2)` where
`state_1 = (1103515245 * S + 12345) mod 2147483648`. The sleep sequence of a
completed run is this constant 20-element sequence regardless of every other
input, hence identical across repeated runs; and for seed 12345 the value is
`state_1 = 1406932606`, sleeping `0.66` in all 20 iterations. -/
theorem C1_prng_and_determinism (S : Int) (h0 : 0 ≤ S) (h1 : S < M) :
    (∀ k, prng_state S (k + 1) = (A * prng_state S k + C) % M)
    ∧ (∀ k, prng_state S k = specState S k)
    ∧ (∀ k, prng_state S (k + 1) = prng_next (prng_state S k))
    ∧ (∀ k, prng_float_hundredths (prng_state S k) =
        roundHalfEven (100 * prng_state S k) M)
    ∧ (∀ rebuild exists0 srcNewer buildOk exits,
        (if needBuild rebuild exists0 srcNewer then buildOk else exists0) = true →
        (∀ i, exits i = 0) →
        randSleepsOf (driverRun S rebuild exists0 srcNewer buildOk exits).1 =
          List.replicate 20 (prng_float_hundredths (prng_next S)))
    ∧ (prng_next 12345 = 1406932606
        ∧ prng_float_hundredths (prng_next 12345) = 66
        ∧ sleepSeq 12345 20 = List.replicate 20 66) := by
  refine ⟨?_, ?_, fun k => rfl, fun k => rfl, ?_, by decide, by decide, by decide⟩
  · intro k
    have hmem := prng_state_mem h0 h1 k
    exact prng_next_eq_emod hmem.1 hmem.2
  · intro k
    induction k with
    | zero => rfl
    | succ k ih =>
      have hmem := prng_state_mem h0 h1 k
      show prng_next (prng_state S k) = Int.emod (A * specState S k + C) M
      rw [← ih]
      exact prng_next_eq_emod hmem.1 hmem.2
  · intro rebuild exists0 srcNewer buildOk exits hart hz
    rw [driverRun_all_zero S rebuild exists0 srcNewer buildOk exits hart hz]
    have hmid := randSleepsOf_loopTrace 20 1 S
    rw [show sleepSeq S 20 = List.replicate 20 (prng_float_hundredths (prng_next S))
      from rfl] at hmid
    unfold randSleepsOf at hmid ⊢
    simp only [List.filterMap_append, hmid]
    cases needBuild rebuild exists0 srcNewer <;> simp

/-- Witness for C1 at the default seed 12345. -/
theorem C1_witness :
    prng_state 12345 1 = (A * prng_state 12345 0 + C) % M ∧
    prng_state 12345 3 = specState 12345 3 ∧
    sleepSeq 12345 20 = List.replicate 20 66 :=
  ⟨(C1_prng_and_determinism 12345 (by decide) (by decide)).1 0,
   (C1_prng_and_determinism 12345 (by decide) (by decide)).2.1 3,
   (C1_prng_and_determinism 12345 (by decide) (by decide)).2.2.2.2.2.2.2⟩

/-! ### Claim C8 -/

/-- C8: for every non-negative seed below the modulus, every generator state
stays in `[0, 2147483648)` and every derived sleep duration lies in
`[0.00, 1.00]` (0 to 100 hundredths); the final conjunct records that the
bound indeed fails for a negative seed, where the shell's `%` yields a
negative state. -/
theorem C8_sleep_bounds (S : Int) (h0 : 0 ≤ S) (h1 : S < M) :
    (∀ k, 0 ≤ prng_state S k ∧ prng_state S k < M)
    ∧ (∀ k, 0 ≤ prng_float_hundredths (prng_state S k) ∧
        prng_float_hundredths (prng_state S k) ≤ 100)
    ∧ prng_state (-1) 1 < 0 := by
  refine ⟨fun k => prng_state_mem h0 h1 k, fun k => ?_, by decide⟩
  have hmem := prng_state_mem h0 h1 k
  exact prng_float_hundredths_mem hmem.1 hmem.2

/-- Witness for C8 at seed 12345, state 2. -/
theorem C8_witness :
    0 ≤ prng_state 12345 2 ∧ prng_state 12345 2 < M ∧
    0 ≤ prng_float_hundredths (prng_state 12345 2) ∧
    prng_float_hundredths (prng_state 12345 2) ≤ 100 :=
  ⟨((C8_sleep_bounds 12345 (by decide) (by decide)).1 2).1,
   ((C8_sleep_bounds 12345 (by decide) (by decide)).1 2).2,
   ((C8_sleep_bounds 12345 (by decide) (by decide)).2.1 2).1,
   ((C8_sleep_bounds 12345 (by decide) (by decide)).2.1 2).2⟩

/-! ### Claim C2 -/

/-- C2: with a runnable artifact and every invocation exiting 0, the driver
performs exactly 20 invocations; the trace is the optional build, then for
each iteration `j+1` the block invocation, fixed settle wait, pseudo-random
wait — in that order (the wait value is the same in every iteration, since
the parent shell's generator state never advances) — and finally the
completion message; the exit code is 0. -/
theorem C2_twenty_iterations (S : Int) (rebuild exists0 srcNewer buildOk : Bool)
    (exits : Nat → Nat)
    (hart : (if needBuild rebuild exists0 srcNewer then buildOk else exists0) = true)
    (hz : ∀ i, exits i = 0) :
    (driverRun S rebuild exists0 srcNewer buildOk exits).1 =
      (if needBuild rebuild exists0 srcNewer then [Event.build] else [])
        ++ (List.range 20).flatMap (fun j =>
            [Event.invoke (j + 1), Event.settle,
             Event.randSleep (prng_float_hundredths (prng_next S))])
        ++ [Event.done]
    ∧ (driverRun S rebuild exists0 srcNewer buildOk exits).2 = 0
    ∧ (driverRun S rebuild exists0 srcNewer buildOk exits).1.countP isInvoke = 20 := by
  have hrun := driverRun_all_zero S rebuild exists0 srcNewer buildOk exits hart hz
  have hflat : loopTrace S 1 20 = (List.range 20).flatMap (fun j =>
      [Event.invoke (j + 1), Event.settle,
       Event.randSleep (prng_float_hundredths (prng_next S))]) := by
    rw [loopTrace_eq_flatMap 20 1 S]
    refine congrArg₂ _ rfl ?_
    funext j
    rw [Nat.add_comm 1 j]
  refine ⟨?_, ?_, ?_⟩
  · rw [hrun, hflat]
  · rw [hrun]
  · rw [hrun]
    simp only [List.countP_append, countP_isInvoke_loopTrace 20 1 S]
    cases needBuild rebuild exists0 srcNewer <;> simp [isInvoke, List.countP_cons]

/-- Witness for C2: seed 12345, artifact present and fresh, all invocations
exit 0; the run exits 0 having invoked exactly 20 times. -/
theorem C2_witness :
    (driverRun 12345 false true false true (fun _ => 0)).2 = 0 ∧
    (driverRun 12345 false true false true (fun _ => 0)).1.countP isInvoke = 20 :=
  ⟨(C2_twenty_iterations 12345 false true false true (fun _ => 0) (by decide)
      (fun _ => rfl)).2.1,
   (C2_twenty_iterations 12345 false true false true (fun _ => 0) (by decide)
      (fun _ => rfl)).2.2⟩

/-! ### Claim C3 -/

/-- The build event appears in the run trace exactly when the freshness check
fires. -/
theorem build_mem_driverRun_iff (S : Int) (rebuild exists0 srcNewer buildOk : Bool)
    (exits : Nat → Nat) :
    Event.build ∈ (driverRun S rebuild exists0 srcNewer buildOk exits).1
      ↔ needBuild rebuild exists0 srcNewer = true := by
  unfold driverRun
  cases hnb : needBuild rebuild exists0 srcNewer with
  | false =>
    simp only [if_false, List.nil_append, Bool.false_eq_true, iff_false]
    split
    · split
      · exact fun hmem => build_not_mem_runIters exits 20 1 S hmem
      · intro hmem
        rcases List.mem_append.mp hmem with h | h
        · exact build_not_mem_runIters exits 20 1 S h
        · simp at h
    · simp
  | true =>
    simp only [if_true, iff_true]
    split
    · split <;> exact List.mem_append.mpr (Or.inl (by simp))
    · simp

/-- C3: the driver runs the build step if and only if the forced-rebuild flag
is set, or the compiled artifact does not exist, or the source is strictly
newer than the artifact. -/
theorem C3_rebuild_decision (S : Int) (rebuild exists0 srcNewer buildOk : Bool)
    (exits : Nat → Nat) :
    Event.build ∈ (driverRun S rebuild exists0 srcNewer buildOk exits).1
      ↔ (rebuild = true ∨ exists0 = false ∨ srcNewer = true) := by
  rw [build_mem_driverRun_iff]
  cases rebuild <;> cases exists0 <;> cases srcNewer <;> simp [needBuild]

/-! ### Claim C4 -/

/-- C4: if iteration `i`'s invocation exits non-zero (the earlier ones having
exited 0), the run ends at that invocation: the trace consists of the
preceding complete iterations followed by the failing invocation as its last
event, the exit status is that invocation's non-zero status, and no later
iteration's invocation (and no further settle or pseudo-random wait) occurs. -/
theorem C4_fatal_propagation (S : Int) (rebuild exists0 srcNewer buildOk : Bool)
    (exits : Nat → Nat) (i : Nat)
    (hart : (if needBuild rebuild exists0 srcNewer then buildOk else exists0) = true)
    (h1 : 1 ≤ i) (h2 : i ≤ 20)
    (hz : ∀ j, 1 ≤ j → j < i → exits j = 0) (hf : exits i ≠ 0) :
    (driverRun S rebuild exists0 srcNewer buildOk exits).1 =
      (if needBuild rebuild exists0 srcNewer then [Event.build] else [])
        ++ loopTrace S 1 (i - 1) ++ [Event.invoke i]
    ∧ (driverRun S rebuild exists0 srcNewer buildOk exits).2 = exits i
    ∧ (driverRun S rebuild exists0 srcNewer buildOk exits).2 ≠ 0
    ∧ (driverRun S rebuild exists0 srcNewer buildOk exits).1.getLast?
        = some (Event.invoke i)
    ∧ (∀ j, i < j → Event.invoke j ∉ (driverRun S rebuild exists0 srcNewer buildOk exits).1)
    ∧ Event.done ∉ (driverRun S rebuild exists0 srcNewer buildOk exits).1 := by
  have hrun := driverRun_fail S rebuild exists0 srcNewer buildOk exits i hart h1 h2 hz hf
  refine ⟨by rw [hrun], by rw [hrun], by rw [hrun]; exact hf, ?_, ?_, ?_⟩
  · rw [hrun]
    rw [show (if needBuild rebuild exists0 srcNewer then [Event.build] else [])
        ++ loopTrace S 1 (i - 1) ++ [Event.invoke i]
      = ((if needBuild rebuild exists0 srcNewer then [Event.build] else [])
        ++ loopTrace S 1 (i - 1)) ++ [Event.invoke i] from by simp]
    exact List.getLast?_concat _
  · intro j hj hmem
    rw [hrun] at hmem
    simp only [List.mem_append, List.mem_singleton] at hmem
    rcases hmem with (h | h) | h
    · cases needBuild rebuild exists0 srcNewer <;> simp_all
    · have := invoke_mem_loopTrace (i - 1) 1 S j h
      omega
    · have : j = i := by injection h
      omega
  · intro hmem
    rw [hrun] at hmem
    simp only [List.mem_append, List.mem_singleton] at hmem
    rcases hmem with (h | h) | h
    · cases needBuild rebuild exists0 srcNewer <;> simp_all
    · have hsh : ∀ n i0 st, Event.done ∉ loopTrace st i0 n := by
        intro n
        induction n with
        | zero => intro i0 st; simp [loopTrace]
        | succ n ih =>
          intro i0 st
          simp only [loopTrace, List.mem_cons]
          push_neg
          exact ⟨by simp, by simp, by simp, ih (i0 + 1) st⟩
      exact hsh (i - 1) 1 S h
    · simp at h

/-- Witness for C4: first invocation exits 7; the run stops there with exit
status 7. -/
theorem C4_witness :
    (driverRun 12345 false true false true (fun _ => 7)).2 = 7 ∧
    (driverRun 12345 false true false true (fun _ => 7)).1.getLast?
      = some (Event.invoke 1) :=
  ⟨(C4_fatal_propagation 12345 false true false true (fun _ => 7) 1 (by decide)
      (by decide) (by decide) (fun j hj1 hj2 => absurd (Nat.lt_of_lt_of_le hj2 hj1)
        (Nat.lt_irrefl j)) (by decide)).2.1,
   (C4_fatal_propagation 12345 false true false true (fun _ => 7) 1 (by decide)
      (by decide) (by decide) (fun j hj1 hj2 => absurd (Nat.lt_of_lt_of_le hj2 hj1)
        (Nat.lt_irrefl j)) (by decide)).2.2.2.1⟩

/-! ### Claim C5 -/

/-- C5 counterexample: an invocation exiting with status 7 makes the driver
exit with status 7, not with the claimed status 1. -/
theorem C5_counterexample :
    (driverRun 12345 false true false true (fun _ => 7)).2 = 7 ∧
    (driverRun 12345 false true false true (fun _ => 7)).2 ≠ 1 := by
  have h := driverRun_fail 12345 false true false true (fun _ => 7) 1 (by decide)
    (by decide) (by decide) (fun j hj1 hj2 => absurd (Nat.lt_of_lt_of_le hj2 hj1)
      (Nat.lt_irrefl j)) (by decide)
  rw [h]
  exact ⟨rfl, by decide⟩

/-- C5 (amended): exit code 0 on normal completion of all iterations; exit
code 1 when the artifact is still missing after the build phase; and when an
iteration's invocation exits non-zero the driver exits with that invocation's
own (non-zero) exit status — which equals 1 only when the invocation's status
is 1. -/
theorem C5_exit_codes (S : Int) (rebuild exists0 srcNewer buildOk : Bool)
    (exits : Nat → Nat) :
    ((if needBuild rebuild exists0 srcNewer then buildOk else exists0) = false →
      (driverRun S rebuild exists0 srcNewer buildOk exits).2 = 1)
    ∧ ((if needBuild rebuild exists0 srcNewer then buildOk else exists0) = true →
        (∀ i, exits i = 0) →
        (driverRun S rebuild exists0 srcNewer buildOk exits).2 = 0)
    ∧ (∀ i, (if needBuild rebuild exists0 srcNewer then buildOk else exists0) = true →
        1 ≤ i → i ≤ 20 → (∀ j, 1 ≤ j → j < i → exits j = 0) → exits i ≠ 0 →
        (driverRun S rebuild exists0 srcNewer buildOk exits).2 = exits i) := by
  refine ⟨fun hart => ?_, fun hart hz => ?_, fun i hart hi1 hi2 hz hf => ?_⟩
  · rw [driverRun_no_artifact S rebuild exists0 srcNewer buildOk exits hart]
  · rw [driverRun_all_zero S rebuild exists0 srcNewer buildOk exits hart hz]
  · rw [driverRun_fail S rebuild exists0 srcNewer buildOk exits i hart hi1 hi2 hz hf]

/-- Witness for C5: the three exit-code regimes at concrete inputs — missing
artifact gives 1, clean run gives 0, an invocation failing with 5 gives 5. -/
theorem C5_witness :
    (driverRun 1 false false false false (fun _ => 0)).2 = 1 ∧
    (driverRun 1 false true false true (fun _ => 0)).2 = 0 ∧
    (driverRun 1 false true false true (fun _ => 5)).2 = 5 :=
  ⟨(C5_exit_codes 1 false false false false (fun _ => 0)).1 (by decide),
   (C5_exit_codes 1 false true false true (fun _ => 0)).2.1 (by decide) (fun _ => rfl),
   (C5_exit_codes 1 false true false true (fun _ => 5)).2.2 1 (by decide) (by decide)
     (by decide) (fun j hj1 hj2 => absurd (Nat.lt_of_lt_of_le hj2 hj1)
       (Nat.lt_irrefl j)) (by decide)⟩

end Driver

namespace Driver

/-! ### Claim C6 -/

/-- C6: `--seed <int>` and `--seed=<int>` set the same seed in every argument
position; the seed defaults to 12345; `--rebuild` sets the forced-rebuild
flag; and an unrecognized argument makes parsing fail, upon which the driver
exits 1 with only a diagnostic — before any build step or iteration. -/
theorem C6_argument_parsing :
    (∀ (v : String) (rest : List String) (seed : String) (rb : Bool),
      parseArgsAux ("--seed" :: v :: rest) seed rb =
        parseArgsAux (("--seed=" ++ v) :: rest) seed rb)
    ∧ parseArgs ["--seed", "42"] = some ("42", false)
    ∧ parseArgs ["--seed=42"] = some ("42", false)
    ∧ bashToInt "42" = 42
    ∧ parseArgs [] = some ("12345", false)
    ∧ parseArgs ["--rebuild"] = some ("12345", true)
    ∧ (∀ (t : String) (rest : List String) (seed : String) (rb : Bool),
        t ≠ "--seed" → strStartsWith t "--seed=" = false → t ≠ "--rebuild" →
        parseArgsAux (t :: rest) seed rb = none)
    ∧ (∀ (args : List String) (exists0 srcNewer buildOk : Bool) (exits : Nat → Nat),
        parseArgs args = none →
        driver args exists0 srcNewer buildOk exits = ([Event.diag "Unknown arg"], 1)) := by
  refine ⟨?_, by decide, by decide, by decide, by decide, by decide, ?_, ?_⟩
  · intro v rest seed rb
    have hne : (("--seed=" ++ v) == "--seed") = false := by
      refine beq_eq_false_iff_ne.mpr ?_
      intro h
      have hlen := congrArg String.length h
      rw [String.length_append] at hlen
      have h7 : ("--seed=").length = 7 := rfl
      have h6 : ("--seed").length = 6 := rfl
      omega
    have hpre : strStartsWith ("--seed=" ++ v) "--seed=" = true := by
      unfold strStartsWith
      rw [String.data_append]
      exact List.isPrefixOf_iff_prefix.mpr (List.prefix_append _ _)
    have hdrop : String.mk (("--seed=" ++ v).data.drop 7) = v := by
      cases v with
      | mk d =>
        show String.mk (("--seed=".data ++ d).drop 7) = String.mk d
        rw [show (7 : Nat) = ("--seed=".data).length from rfl, List.drop_left]
    conv_lhs => rw [parseArgsAux.eq_def]
    conv_rhs => rw [parseArgsAux.eq_def]
    simp only [hne, hpre, hdrop, beq_self_eq_true, if_true, if_false,
      Bool.false_eq_true, Bool.true_eq_false, reduceCtorEq, ite_true, ite_false]
  · intro t rest seed rb ht1 ht2 ht3
    have h1 : (t == "--seed") = false := beq_eq_false_iff_ne.mpr ht1
    have h3 : (t == "--rebuild") = false := beq_eq_false_iff_ne.mpr ht3
    rw [parseArgsAux.eq_def]
    simp only [h1, ht2, h3, Bool.false_eq_true, if_false, ite_false]
  · intro args exists0 srcNewer buildOk exits hparse
    simp only [driver, hparse]

/-- Witness for C6: `--bogus` aborts the run with exit code 1 and no build or
invocation, and `--seed 42` / `--seed=42` give the same parse. -/
theorem C6_witness :
    driver ["--bogus"] true false true (fun _ => 0) = ([Event.diag "Unknown arg"], 1) ∧
    parseArgsAux ["--seed", "42"] "12345" false =
      parseArgsAux ["--seed=" ++ "42"] "12345" false :=
  ⟨C6_argument_parsing.2.2.2.2.2.2.2 ["--bogus"] true false true (fun _ => 0)
    (C6_argument_parsing.2.2.2.2.2.2.1 "--bogus" [] "12345" false
      (by decide) (by decide) (by decide)),
   C6_argument_parsing.1 "42" [] "12345" false⟩

end Driver

namespace CreateDoc

/-! ### Claim C7 -/

/-- C7: the trigger artifact creates a fixed burst of 3 records, each with the
`generate` flag initially `false`; each record's program then waits its
staggered `i * 100` ms delay and updates the record setting the flag to
`true`, with the create strictly before the update; the process exits 0 when
every operation succeeds and exits 1 — after printing the error — when any
operation rejects. -/
theorem C7_create_doc_artifact :
    NUM_DOCS = 3
    ∧ mainOps.length = NUM_DOCS
    ∧ (∀ i, ∃ a b : Nat, a < b ∧
        (recordOps i)[a]? = some (ScriptOp.create i false) ∧
        (recordOps i)[b]? = some (ScriptOp.update i true))
    ∧ (∀ i, (recordOps i)[1]? = some (ScriptOp.delayMs (i * 100)))
    ∧ (∀ i, (ScriptOp.update i true) ∈ recordOps i ∧ (ScriptOp.update i false) ∉ recordOps i)
    ∧ scriptExit false = 0
    ∧ (scriptExit true ≠ 0 ∧ scriptDiagnostic true = true) := by
  refine ⟨rfl, rfl, fun i => ⟨0, 2, by simp, rfl, rfl⟩, fun i => rfl, fun i => ?_,
    rfl, by simp [scriptExit], rfl⟩
  simp [recordOps]

end CreateDoc

namespace Handlers

/-! ### Claim C9 -/

/-- C9: on a Storage finalize event whose object name is absent or does not
start with `uploads/`, the finalize handler performs no Firestore operation at
all: no token-document read or write and no upload-document merge write. -/
theorem C9_finalize_ignores_other_files (ev : StorageObjectData)
    (lookup : String → Option TokenData)
    (h : ev.name.elim true (fun s => ! Driver.strStartsWith s "uploads/") = true) :
    onUploadFileFinalize ev lookup = [] := by
  cases hn : ev.name with
  | none => simp [onUploadFileFinalize, hn]
  | some s =>
    rw [hn] at h
    simp only [Option.elim] at h
    have hs : Driver.strStartsWith s "uploads/" = false := by
      cases hsw : Driver.strStartsWith s "uploads/" <;> simp_all
    simp [onUploadFileFinalize, hn, hs]

/-- Witness for C9: a finalize event for `other/file.txt` — even with an
upload token whose document would match — produces no Firestore operation. -/
theorem C9_witness :
    onUploadFileFinalize ⟨some "other/file.txt", some "tok"⟩
      (fun _ => some ⟨false, "other/file.txt"⟩) = [] :=
  C9_finalize_ignores_other_files ⟨some "other/file.txt", some "tok"⟩
    (fun _ => some ⟨false, "other/file.txt"⟩) (by decide)

/-! ### Claim C10 -/

/-- C10: when the after-document's `generate` is not `true`, or the
before-document's `generate` is already `true`, both update handlers return
without dispatching any clip processing; and since the finalize handler's
merge write never changes `generate`, a finalize-induced update of an uploads
document never re-triggers the generation flow in either handler. -/
theorem C10_no_retrigger (uploadId : String) (wlClips : Nat)
    (before after d : UploadDoc) (ts : Nat) (objectName : String)
    (h : (after.generate == some true) = false ∨ (before.generate == some true) = true) :
    onUploadUpdate uploadId before after = []
    ∧ onUploadUpdateRepro uploadId wlClips before after = []
    ∧ (applyFinalizeMerge d ts objectName).generate = d.generate
    ∧ onUploadUpdate uploadId d (applyFinalizeMerge d ts objectName) = []
    ∧ onUploadUpdateRepro uploadId wlClips d (applyFinalizeMerge d ts objectName) = [] := by
  have hmerge : (applyFinalizeMerge d ts objectName).generate = d.generate := rfl
  refine ⟨?_, ?_, hmerge, ?_, ?_⟩
  · unfold onUploadUpdate
    rcases h with h | h <;> simp [h]
  · unfold onUploadUpdateRepro
    rcases h with h | h <;> simp [h]
  · unfold onUploadUpdate
    rw [hmerge]
    cases hd : (d.generate == some true) <;> simp [hd]
  · unfold onUploadUpdateRepro
    rw [hmerge]
    cases hd : (d.generate == some true) <;> simp [hd]

/-- Witness for C10: a document whose `generate` stays `false` across the
finalize handler's merge write triggers no clip processing in either handler. -/
theorem C10_witness :
    onUploadUpdate "u1" { generate := some false }
      (applyFinalizeMerge { generate := some false } 5 "uploads/u1-0-x.txt") = [] ∧
    onUploadUpdateRepro "u1" 5 { generate := some false }
      (applyFinalizeMerge { generate := some false } 5 "uploads/u1-0-x.txt") = [] :=
  ⟨(C10_no_retrigger "u1" 5 { generate := some false }
      (applyFinalizeMerge { generate := some false } 5 "uploads/u1-0-x.txt")
      { generate := some false } 5 "uploads/u1-0-x.txt" (Or.inl (by decide))).1,
   (C10_no_retrigger "u1" 5 { generate := some false }
      (applyFinalizeMerge { generate := some false } 5 "uploads/u1-0-x.txt")
      { generate := some false } 5 "uploads/u1-0-x.txt" (Or.inl (by decide))).2.1⟩

end Handlers

namespace Driver

/-- Witness for C3: with the forced-rebuild flag set the build step runs, and
with a fresh existing artifact and no flag it does not. -/
theorem C3_witness :
    Event.build ∈ (driverRun 1 true true false true (fun _ => 0)).1 ∧
    Event.build ∉ (driverRun 1 false true false true (fun _ => 0)).1 :=
  ⟨(C3_rebuild_decision 1 true true false true (fun _ => 0)).mpr (Or.inl rfl),
   fun hmem => by
    have h := (C3_rebuild_decision 1 false true false true (fun _ => 0)).mp hmem
    rcases h with h | h | h <;> exact absurd h (by decide)⟩

end Driver

namespace CreateDoc

/-- Witness for C7 at record 2: its delay is 200 ms and its update sets the
flag to true. -/
theorem C7_witness :
    (recordOps 2)[1]? = some (ScriptOp.delayMs 200) ∧
    ScriptOp.update 2 true ∈ recordOps 2 :=
  ⟨C7_create_doc_artifact.2.2.2.1 2, (C7_create_doc_artifact.2.2.2.2.1 2).1⟩

end CreateDoc
